import Mathlib

/-!
# Verification of the disease-backend `/analyze` handler

Shallow embedding of `src/app.py` (a single Flask request handler).

The handler: checks that a file was uploaded, parses it as CSV with pandas,
checks the twelve required columns, replaces NaN cells by `None`, runs a
pre-loaded vectorizer and multi-label classifier over the tweet texts,
builds one result record per row (detected symptom labels, a relevance
flag `is_tb`, an importance score), sorts by score descending and returns
JSON; any exception is caught and mapped to a 500 response.

Modelling conventions:
* Python cell values are the inductive `Cell`; a missing/empty CSV cell is
  `Cell.nan` (pandas represents it as the float NaN).
* Python float arithmetic is modelled exactly over `ℚ`; the score formula
  `0.4*reply + 0.3*retweet + 0.2*like + 0.1*views + is_tb*100` is the
  literal expression of app.py lines 82-88.
* The pickled vectorizer and classifier are opaque deterministic functions,
  abstracted as fields of `Model`; `pd.read_csv` is the abstract
  `Model.parse` (it may fail, which the handler's `except` maps to 500).
* Python exceptions are `Except Unit`; an exception anywhere in the loop
  aborts the whole batch, exactly as in the `try`/`except` of app.py.
* `list.sort(key=..., reverse=True)` is a stable descending sort; it is
  embedded as the (unique) stable insertion sort `sortDesc`.
-/

/-- A Python value held in a pandas cell. `nan` is the pandas missing-value
marker (float NaN, what an empty CSV cell parses to); `none` is Python
`None`; numbers are modelled exactly as rationals. -/
inductive Cell where
  | nan : Cell
  | none : Cell
  | str : String → Cell
  | num : ℚ → Cell
  | boolean : Bool → Cell
deriving DecidableEq

/-- JSON values (for response bodies). `nanToken` stands for the invalid
bare `NaN` token Python's json module would emit for a float NaN; the
development proves it is never produced. -/
inductive JSON where
  | null : JSON
  | str : String → JSON
  | num : ℚ → JSON
  | boolean : Bool → JSON
  | arr : List JSON → JSON
  | obj : List (String × JSON) → JSON
  | nanToken : JSON

/-- Python truthiness of a cell value: `None` and `False` are falsy, a
string is truthy iff non-empty, a number is truthy iff non-zero, and the
float NaN is truthy (it is a non-zero float). -/
def Cell.truthy : Cell → Bool
  | .nan => true
  | .none => false
  | .str s => !s.isEmpty
  | .num q => q != 0
  | .boolean b => b

/-- JSON serialization of a cell, as `flask.jsonify`/`json.dumps` would
emit it: `None` becomes `null`; a NaN would become the invalid `NaN`
token. -/
def Cell.toJSON : Cell → JSON
  | .nan => JSON.nanToken
  | .none => JSON.null
  | .str s => JSON.str s
  | .num q => JSON.num q
  | .boolean b => JSON.boolean b

/-- One row of the parsed dataframe, with the twelve columns the handler
extracts (app.py lines 53-64). Each field is the raw cell value. -/
structure Row where
  tweetText : Cell
  tweetURL : Cell
  tweetAuthor : Cell
  handle : Cell
  geo : Cell
  createdAt : Cell
  replyCount : Cell
  quoteCount : Cell
  retweetCount : Cell
  likeCount : Cell
  views : Cell
  bookmarkCount : Cell
deriving DecidableEq

/-- The cells of a row, in column order. -/
def Row.cells (r : Row) : List Cell :=
  [r.tweetText, r.tweetURL, r.tweetAuthor, r.handle, r.geo, r.createdAt,
   r.replyCount, r.quoteCount, r.retweetCount, r.likeCount, r.views,
   r.bookmarkCount]

/-- A parsed dataframe: the header (column names, for the required-column
check of app.py line 46) and the data rows. -/
structure CSV where
  columns : List String
  rows : List Row
deriving DecidableEq

/-- One entry of the JSON response array (the dict built at app.py
lines 91-107). -/
structure Record where
  tweetText : Cell
  tweetURL : Cell
  tweetAuthor : Cell
  handle : Cell
  geo : Cell
  createdAt : Cell
  is_tb : Bool
  detected_symptoms : List String
  importance_score : ℚ
  replyCount : Cell
  quoteCount : Cell
  retweetCount : Cell
  likeCount : Cell
  views : Cell
  bookmarkCount : Cell
deriving DecidableEq

/-- The echoed cell-valued fields of a result record, in column order. -/
def Record.cells (r : Record) : List Cell :=
  [r.tweetText, r.tweetURL, r.tweetAuthor, r.handle, r.geo, r.createdAt,
   r.replyCount, r.quoteCount, r.retweetCount, r.likeCount, r.views,
   r.bookmarkCount]

/-- JSON serialization of a record, keys in the insertion order of the
Python dict (app.py lines 91-107). -/
def Record.toJSON (r : Record) : JSON :=
  JSON.obj
    [("tweetText", r.tweetText.toJSON),
     ("tweetURL", r.tweetURL.toJSON),
     ("tweetAuthor", r.tweetAuthor.toJSON),
     ("handle", r.handle.toJSON),
     ("geo", r.geo.toJSON),
     ("createdAt", r.createdAt.toJSON),
     ("is_tb", JSON.boolean r.is_tb),
     ("detected_symptoms", JSON.arr (r.detected_symptoms.map JSON.str)),
     ("importance_score", JSON.num r.importance_score),
     ("replyCount", r.replyCount.toJSON),
     ("quoteCount", r.quoteCount.toJSON),
     ("retweetCount", r.retweetCount.toJSON),
     ("likeCount", r.likeCount.toJSON),
     ("views", r.views.toJSON),
     ("bookmarkCount", r.bookmarkCount.toJSON)]

/-- An HTTP response: status code and JSON body. -/
structure Response where
  status : ℕ
  body : JSON

/-- The process-wide environment the handler runs in: `pd.read_csv`
(which may raise on malformed bytes), the pickled vectorizer
(`vectorizer.transform`, applied text-by-text) and classifier
(`classifier.predict`, applied to the whole batch of feature vectors,
returning one 0/1 vector per row). All are fixed, deterministic,
stateless functions, loaded once at startup (app.py lines 24-27). -/
structure Model where
  parse : List ℕ → Except Unit CSV
  vectorize : Cell → List ℚ
  classify : List (List ℚ) → List (List ℕ)

/-- app.py line 30. -/
def symptom_labels : List String :=
  ["respiratory", "fever", "fatigue", "pain", "gastrointestinal"]

/-- app.py lines 44-45. -/
def required_columns : List String :=
  ["tweetText", "tweetURL", "tweetAuthor", "handle", "geo", "createdAt",
   "replyCount", "quoteCount", "retweetCount", "likeCount", "views",
   "bookmarkCount"]

/-- A single-quote character (ASCII 39). -/
def singleQuote : String := (Char.ofNat 39).toString

/-- Python's `str` of a list of strings, as interpolated by the f-string
of app.py line 47: `['a', 'b', ...]`. -/
def pyListRepr (xs : List String) : String :=
  "[" ++ String.intercalate ", " (xs.map (fun s => singleQuote ++ s ++ singleQuote)) ++ "]"

/-- `df.where(pd.notnull(df), None)` on one cell (app.py line 50):
`pd.notnull` is false exactly on NaN and None, so NaN cells become None
and every other value is kept. -/
def normalizeCell : Cell → Cell
  | .nan => Cell.none
  | c => c

/-- Line 50 applied to a row. -/
def normalizeRow (r : Row) : Row :=
  { tweetText := normalizeCell r.tweetText
    tweetURL := normalizeCell r.tweetURL
    tweetAuthor := normalizeCell r.tweetAuthor
    handle := normalizeCell r.handle
    geo := normalizeCell r.geo
    createdAt := normalizeCell r.createdAt
    replyCount := normalizeCell r.replyCount
    quoteCount := normalizeCell r.quoteCount
    retweetCount := normalizeCell r.retweetCount
    likeCount := normalizeCell r.likeCount
    views := normalizeCell r.views
    bookmarkCount := normalizeCell r.bookmarkCount }

/-- Line 50 applied to the dataframe (the header is unchanged). -/
def normalizeDF (df : CSV) : CSV :=
  { columns := df.columns, rows := df.rows.map normalizeRow }

/-- Python list indexing `xs[i]` for a non-negative index: raises
IndexError when out of range. -/
def exceptGet {α : Type} (xs : List α) (i : ℕ) : Except Unit α :=
  match xs.get? i with
  | some x => Except.ok x
  | Option.none => Except.error ()

/-- The comprehension of app.py line 76,
`[symptom_labels[j] for j, present in enumerate(symptom_presence) if present == 1]`,
with `j` tracked explicitly: walk the prediction vector, and for each bit
equal to 1 index into `symptom_labels` (an out-of-range index raises). -/
def detectedLoop (j : ℕ) : List ℕ → Except Unit (List String)
  | [] => Except.ok []
  | b :: bs =>
    if b == 1 then
      match exceptGet symptom_labels j with
      | Except.error e => Except.error e
      | Except.ok lab =>
        match detectedLoop (j + 1) bs with
        | Except.error e => Except.error e
        | Except.ok labs => Except.ok (lab :: labs)
    else detectedLoop (j + 1) bs

/-- app.py line 76. -/
def detectedSymptomsE (pred : List ℕ) : Except Unit (List String) :=
  detectedLoop 0 pred

/-- Python `any` over a list of strings (app.py line 79): true iff some
element is truthy, i.e. some element is a non-empty string. -/
def pyAnyStr (l : List String) : Bool :=
  l.any (fun s => !s.isEmpty)

/-- Python `f * cell` for a float literal `f`: defined on numbers and
booleans (`bool` is an int in Python), a TypeError otherwise. A NaN cell
cannot reach this point (line 50 ran first), so it is mapped to the
error case as well. -/
def pyScale (f : ℚ) : Cell → Except Unit ℚ
  | .num q => Except.ok (f * q)
  | .boolean b => Except.ok (f * (if b then 1 else 0))
  | _ => Except.error ()

/-- The importance score of app.py lines 82-88:
`0.4*reply + 0.3*retweet + 0.2*like + 0.1*views + is_tb*100`,
where `is_tb` is the 0/1 int of line 79. Raises if any of the four
engagement cells is not numeric. -/
def scoreE (r : Row) (is_tb : Bool) : Except Unit ℚ :=
  match pyScale (4/10) r.replyCount, pyScale (3/10) r.retweetCount,
        pyScale (2/10) r.likeCount, pyScale (1/10) r.views with
  | Except.ok a, Except.ok b, Except.ok c, Except.ok d =>
      Except.ok (a + b + c + d + (if is_tb then 100 else 0))
  | _, _, _, _ => Except.error ()

/-- The dict of app.py lines 91-107 for one row. -/
def mkRecord (r : Row) (detected : List String) (is_tb : Bool) (score : ℚ) :
    Record :=
  { tweetText := r.tweetText
    tweetURL := r.tweetURL
    tweetAuthor := r.tweetAuthor
    handle := r.handle
    geo := if r.geo.truthy then r.geo else Cell.none
    createdAt := r.createdAt
    is_tb := is_tb
    detected_symptoms := detected
    importance_score := score
    replyCount := r.replyCount
    quoteCount := r.quoteCount
    retweetCount := r.retweetCount
    likeCount := r.likeCount
    views := r.views
    bookmarkCount := r.bookmarkCount }

/-- The result loop of app.py lines 73-107, with `i` the running row
index: look up the prediction vector for row `i` (IndexError if the
classifier returned fewer rows), compute the detected labels, the
relevance flag `is_tb = int(any(detected_symptoms))` and the score, and
append the record. Any exception aborts the whole loop. -/
def buildResults (preds : List (List ℕ)) : ℕ → List Row → Except Unit (List Record)
  | _, [] => Except.ok []
  | i, r :: rs =>
    match exceptGet preds i with
    | Except.error e => Except.error e
    | Except.ok pred =>
      match detectedSymptomsE pred with
      | Except.error e => Except.error e
      | Except.ok detected =>
        match scoreE r (pyAnyStr detected) with
        | Except.error e => Except.error e
        | Except.ok score =>
          match buildResults preds (i + 1) rs with
          | Except.error e => Except.error e
          | Except.ok rest =>
              Except.ok (mkRecord r detected (pyAnyStr detected) score :: rest)

/-- app.py lines 53-107: extract the texts, vectorize them
(`vectorizer.transform`), classify the batch (`classifier.predict`), and
run the result loop. -/
def processRows (M : Model) (rows : List Row) : Except Unit (List Record) :=
  buildResults (M.classify ((rows.map (fun r => r.tweetText)).map M.vectorize)) 0 rows

/-- Insert a record into an already-sorted (descending) list, in front of
the first element whose score is not larger. Equal-score elements already
in the list came from earlier insertions, hence from later input rows, so
the new record is placed before them. -/
def insertDesc (x : Record) : List Record → List Record
  | [] => [x]
  | y :: ys =>
    if x.importance_score < y.importance_score then y :: insertDesc x ys
    else x :: y :: ys

/-- `results.sort(key=lambda x: x['importance_score'], reverse=True)`
(app.py line 110). Python's sort is stable also with `reverse=True`; a
stable sort is uniquely determined by the key order, so it is embedded as
stable insertion sort. -/
def sortDesc : List Record → List Record
  | [] => []
  | x :: xs => insertDesc x (sortDesc xs)

/-- The 500 response of app.py line 123. -/
def internalErrorResponse : Response :=
  ⟨500, JSON.obj [("error", JSON.str "Internal server error")]⟩

/-- The `/analyze` handler (app.py lines 32-123). `file` is the uploaded
bytes, `Option.none` when the multipart body has no file. The guard of
line 46 (`if not all(...)`) is written with the branches swapped. -/
def analyze (M : Model) (file : Option (List ℕ)) : Response :=
  match file with
  | Option.none => ⟨400, JSON.obj [("error", JSON.str "No file provided")]⟩
  | Option.some bytes =>
    match M.parse bytes with
    | Except.error _ => internalErrorResponse
    | Except.ok df =>
      if required_columns.all (fun c => df.columns.contains c) then
        match processRows M (normalizeDF df).rows with
        | Except.error _ => internalErrorResponse
        | Except.ok records =>
            ⟨200, JSON.arr ((sortDesc records).map Record.toJSON)⟩
      else
        ⟨400, JSON.obj [("error",
          JSON.str ("CSV file must contain the following columns: " ++
            pyListRepr required_columns))]⟩

/-- Spec-side description of step 6 of the spec ("Detected symptoms =
labels whose corresponding bit is 1, preserving label-set order"): walk
the label list and the bit vector in parallel, keeping the labels whose
bit is 1. Compared below with `detectedSymptomsE`, which embeds the
code's comprehension. -/
def spec_selectedLabels : List String → List ℕ → List String
  | _, [] => []
  | [], _ => []
  | lab :: labs, b :: bs =>
    if b == 1 then lab :: spec_selectedLabels labs bs
    else spec_selectedLabels labs bs

/-- Fields of two rows pairwise equal, except that `quoteCount` and
`bookmarkCount` are unconstrained. -/
def Row.eqExceptQB (r r' : Row) : Prop :=
  r.tweetText = r'.tweetText ∧ r.tweetURL = r'.tweetURL ∧
  r.tweetAuthor = r'.tweetAuthor ∧ r.handle = r'.handle ∧
  r.geo = r'.geo ∧ r.createdAt = r'.createdAt ∧
  r.replyCount = r'.replyCount ∧ r.retweetCount = r'.retweetCount ∧
  r.likeCount = r'.likeCount ∧ r.views = r'.views

/-- Two row lists pairwise related by `Row.eqExceptQB`. -/
def rowsEqExceptQB : List Row → List Row → Prop
  | [], [] => True
  | r :: rs, r' :: rs' => Row.eqExceptQB r r' ∧ rowsEqExceptQB rs rs'
  | _, _ => False

/-! ### Concrete test data (used to instantiate the theorems below) -/

/-- A row whose text the test classifier flags as symptomatic. -/
def rowA : Row :=
  { tweetText := Cell.str "persistent cough"
    tweetURL := Cell.str "https://x.com/1"
    tweetAuthor := Cell.str "Alice"
    handle := Cell.str "@alice"
    geo := Cell.str "KE"
    createdAt := Cell.str "2024-01-01"
    replyCount := Cell.num 10
    quoteCount := Cell.num 7
    retweetCount := Cell.num 5
    likeCount := Cell.num 20
    views := Cell.num 100
    bookmarkCount := Cell.num 3 }

/-- A row with empty `geo` and a missing `createdAt` cell, all engagement
zero, text not flagged by the test classifier. -/
def rowB : Row :=
  { tweetText := Cell.str "hello world"
    tweetURL := Cell.str "https://x.com/2"
    tweetAuthor := Cell.str "Bob"
    handle := Cell.str "@bob"
    geo := Cell.str ""
    createdAt := Cell.nan
    replyCount := Cell.num 0
    quoteCount := Cell.num 0
    retweetCount := Cell.num 0
    likeCount := Cell.num 0
    views := Cell.num 0
    bookmarkCount := Cell.num 0 }

/-- `rowA` with different `quoteCount` and `bookmarkCount`. -/
def rowA' : Row :=
  { rowA with quoteCount := Cell.num 999, bookmarkCount := Cell.num 1234 }

/-- `rowA` with a non-numeric engagement cell (raises in the score). -/
def badRow : Row :=
  { rowA with replyCount := Cell.none }

/-- A well-formed dataframe. -/
def testCSV : CSV := { columns := required_columns, rows := [rowA, rowB] }

/-- A dataframe missing most required columns. -/
def badCSV : CSV := { columns := ["tweetText", "views"], rows := [] }

/-- A well-formed header whose single row raises during scoring. -/
def errRowCSV : CSV := { columns := required_columns, rows := [badRow] }

/-- A concrete environment: parsing returns a dataframe chosen by the
uploaded bytes (or raises on `[]`); the vectorizer and classifier flag
exactly the texts containing a marker feature. -/
def testModel : Model :=
  { parse := fun bs =>
      match bs with
      | [] => Except.error ()
      | [1] => Except.ok badCSV
      | [2] => Except.ok errRowCSV
      | _ => Except.ok testCSV
    vectorize := fun c =>
      match c with
      | Cell.str s => if s = "persistent cough" then [1] else [0]
      | _ => [0]
    classify := fun vs =>
      vs.map (fun v => if v = [1] then [1, 0, 0, 0, 0] else [0, 0, 0, 0, 0]) }

/-- Extract the record list from a successful batch ([] on error). -/
def okRecords (e : Except Unit (List Record)) : List Record :=
  match e with
  | Except.ok l => l
  | Except.error _ => []

/-- Records of the unnormalized test rows. -/
def testRecs : List Record := okRecords (processRows testModel [rowA, rowB])

/-- Records of the rows with modified quote/bookmark counts. -/
def testRecs' : List Record := okRecords (processRows testModel [rowA', rowB])

/-- Records of the normalized test dataframe. -/
def testRecsN : List Record :=
  okRecords (processRows testModel (normalizeDF testCSV).rows)

/-! ### Helper lemmas -/

theorem exceptGet_ok_iff {α : Type} (xs : List α) (i : ℕ) (x : α) :
    exceptGet xs i = Except.ok x ↔ xs.get? i = some x := by
  simp only [exceptGet]
  cases xs.get? i <;> simp

theorem spec_selectedLabels_nil (bs : List ℕ) :
    spec_selectedLabels [] bs = [] := by
  cases bs <;> rfl

theorem spec_selectedLabels_nilBits (labs : List String) :
    spec_selectedLabels labs [] = [] := by
  cases labs <;> rfl

theorem spec_selectedLabels_sublist (bs : List ℕ) :
    ∀ labs : List String, (spec_selectedLabels labs bs).Sublist labs := by
  induction bs with
  | nil => intro labs; cases labs <;> exact List.nil_sublist _
  | cons b bs ih =>
    intro labs
    cases labs with
    | nil => exact List.nil_sublist _
    | cons lab labs =>
      simp only [spec_selectedLabels]
      by_cases hb : b == 1
      · simp only [hb, if_true]
        exact (ih labs).cons₂ lab
      · simp only [hb, if_false]
        exact (ih labs).cons lab

theorem detectedLoop_ok (pred : List ℕ) :
    ∀ (j : ℕ) (l : List String), detectedLoop j pred = Except.ok l →
      l = spec_selectedLabels (symptom_labels.drop j) pred := by
  induction pred with
  | nil =>
    intro j l h
    simp only [detectedLoop, Except.ok.injEq] at h
    subst h
    exact (spec_selectedLabels_nilBits _).symm
  | cons b bs ih =>
    intro j l h
    simp only [detectedLoop] at h
    by_cases hb : b == 1
    · rw [if_pos hb] at h
      cases hg : exceptGet symptom_labels j with
      | error e => rw [hg] at h; exact absurd h (by simp)
      | ok lab =>
        rw [hg] at h
        cases hd : detectedLoop (j + 1) bs with
        | error e => rw [hd] at h; exact absurd h (by simp)
        | ok labs =>
          rw [hd] at h
          simp only [Except.ok.injEq] at h
          have hget : symptom_labels.get? j = some lab :=
            (exceptGet_ok_iff _ _ _).mp hg
          have hj : j < symptom_labels.length := by
            by_contra hlt
            rw [List.get?_eq_none.mpr (by omega)] at hget
            exact absurd hget (by simp)
          have hdrop : symptom_labels.drop j =
              lab :: symptom_labels.drop (j + 1) := by
            rw [List.drop_eq_getElem_cons hj]
            have hlab : symptom_labels[j] = lab := by
              rw [List.get?_eq_get hj] at hget
              simpa using hget
            rw [hlab]
          rw [hdrop]
          simp only [spec_selectedLabels, hb, if_true]
          rw [← h, ih (j + 1) labs hd]
    · rw [if_neg hb] at h
      have hl := ih (j + 1) l h
      by_cases hj : j < symptom_labels.length
      · rw [List.drop_eq_getElem_cons hj]
        simp only [spec_selectedLabels, hb, if_false]
        exact hl
      · rw [List.drop_eq_nil_of_le (by omega), spec_selectedLabels_nil]
        rw [List.drop_eq_nil_of_le (by omega), spec_selectedLabels_nil] at hl
        exact hl

theorem detectedSymptomsE_ok (pred : List ℕ) (l : List String)
    (h : detectedSymptomsE pred = Except.ok l) :
    l = spec_selectedLabels symptom_labels pred :=
  detectedLoop_ok pred 0 l h

theorem detectedSymptomsE_ok_mem (pred : List ℕ) (l : List String)
    (h : detectedSymptomsE pred = Except.ok l) :
    ∀ s ∈ l, s ∈ symptom_labels := by
  intro s hs
  rw [detectedSymptomsE_ok pred l h] at hs
  exact (spec_selectedLabels_sublist pred symptom_labels).subset hs

theorem mem_symptom_labels_ne_empty :
    ∀ s ∈ symptom_labels, s.isEmpty = false := by decide

theorem pyAnyStr_iff (l : List String)
    (hne : ∀ s ∈ l, s.isEmpty = false) :
    (pyAnyStr l = true ↔ l ≠ []) := by
  cases l with
  | nil => simp [pyAnyStr]
  | cons s t =>
    simp only [pyAnyStr, List.any_cons, Bool.or_eq_true]
    constructor
    · intro _; exact List.cons_ne_nil s t
    · intro _
      left
      rw [hne s (List.mem_cons_self s t)]
      rfl

/-! ### Sorting lemmas -/

theorem mem_insertDesc (a x : Record) (l : List Record) :
    a ∈ insertDesc x l ↔ a = x ∨ a ∈ l := by
  induction l with
  | nil => simp [insertDesc]
  | cons y ys ih =>
    simp only [insertDesc]
    split
    · simp only [List.mem_cons, ih]
      tauto
    · simp only [List.mem_cons]

theorem pairwise_insertDesc (x : Record) (l : List Record)
    (h : List.Pairwise (fun a b => b.importance_score ≤ a.importance_score) l) :
    List.Pairwise (fun a b => b.importance_score ≤ a.importance_score)
      (insertDesc x l) := by
  induction l with
  | nil => simp [insertDesc]
  | cons y ys ih =>
    rw [List.pairwise_cons] at h
    simp only [insertDesc]
    split
    · rename_i hlt
      rw [List.pairwise_cons]
      refine ⟨?_, ih h.2⟩
      intro a ha
      rcases (mem_insertDesc a x ys).mp ha with rfl | ha
      · exact le_of_lt hlt
      · exact h.1 a ha
    · rename_i hge
      push_neg at hge
      rw [List.pairwise_cons]
      refine ⟨?_, List.pairwise_cons.mpr h⟩
      intro a ha
      rcases List.mem_cons.mp ha with rfl | ha
      · exact hge
      · exact le_trans (h.1 a ha) hge

theorem pairwise_sortDesc (l : List Record) :
    List.Pairwise (fun a b => b.importance_score ≤ a.importance_score)
      (sortDesc l) := by
  induction l with
  | nil => simp [sortDesc]
  | cons x xs ih => exact pairwise_insertDesc x (sortDesc xs) ih

theorem filter_insertDesc (x : Record) (l : List Record) (q : ℚ) :
    (insertDesc x l).filter (fun r => decide (r.importance_score = q)) =
      if x.importance_score = q then
        x :: l.filter (fun r => decide (r.importance_score = q))
      else l.filter (fun r => decide (r.importance_score = q)) := by
  induction l with
  | nil =>
    by_cases hx : x.importance_score = q <;>
      simp [insertDesc, List.filter, hx]
  | cons y ys ih =>
    simp only [insertDesc]
    split
    · rename_i hlt
      by_cases hx : x.importance_score = q
      · have hy : ¬ y.importance_score = q := by
          intro hy
          rw [hx, hy] at hlt
          exact lt_irrefl q hlt
        simp [List.filter_cons, hx, hy, ih]
      · by_cases hy : y.importance_score = q <;>
          simp [List.filter_cons, hx, hy, ih]
    · by_cases hx : x.importance_score = q <;>
        simp [List.filter_cons, hx]

theorem filter_sortDesc (l : List Record) (q : ℚ) :
    (sortDesc l).filter (fun r => decide (r.importance_score = q)) =
      l.filter (fun r => decide (r.importance_score = q)) := by
  induction l with
  | nil => rfl
  | cons x xs ih =>
    simp only [sortDesc, filter_insertDesc, ih]
    by_cases hx : x.importance_score = q <;> simp [List.filter_cons, hx]

/-! ### Characterization of the result loop -/

theorem buildResults_ok_length (preds : List (List ℕ)) :
    ∀ (rows : List Row) (i : ℕ) (recs : List Record),
      buildResults preds i rows = Except.ok recs →
      recs.length = rows.length := by
  intro rows
  induction rows with
  | nil =>
    intro i recs h
    simp only [buildResults, Except.ok.injEq] at h
    subst h
    rfl
  | cons r rs ih =>
    intro i recs h
    simp only [buildResults] at h
    cases h1 : exceptGet preds i with
    | error e => simp only [h1] at h; exact absurd h (by simp)
    | ok pred =>
      simp only [h1] at h
      cases h2 : detectedSymptomsE pred with
      | error e => simp only [h2] at h; exact absurd h (by simp)
      | ok detected =>
        simp only [h2] at h
        cases h3 : scoreE r (pyAnyStr detected) with
        | error e => simp only [h3] at h; exact absurd h (by simp)
        | ok score =>
          simp only [h3] at h
          cases h4 : buildResults preds (i + 1) rs with
          | error e => simp only [h4] at h; exact absurd h (by simp)
          | ok rest =>
            simp only [h4] at h
            simp only [Except.ok.injEq] at h
            subst h
            simp [ih (i + 1) rest h4]

theorem buildResults_ok_get (preds : List (List ℕ)) :
    ∀ (rows : List Row) (i : ℕ) (recs : List Record),
      buildResults preds i rows = Except.ok recs →
      ∀ (k : ℕ) (hk : k < rows.length) (hk' : k < recs.length),
        ∃ (pred : List ℕ) (detected : List String) (score : ℚ),
          preds.get? (i + k) = some pred ∧
          detectedSymptomsE pred = Except.ok detected ∧
          scoreE (rows.get ⟨k, hk⟩) (pyAnyStr detected) = Except.ok score ∧
          recs.get ⟨k, hk'⟩ =
            mkRecord (rows.get ⟨k, hk⟩) detected (pyAnyStr detected) score := by
  intro rows
  induction rows with
  | nil =>
    intro i recs _ k hk
    exact absurd hk (by simp)
  | cons r rs ih =>
    intro i recs h k hk hk'
    simp only [buildResults] at h
    cases h1 : exceptGet preds i with
    | error e => simp only [h1] at h; exact absurd h (by simp)
    | ok pred =>
      simp only [h1] at h
      cases h2 : detectedSymptomsE pred with
      | error e => simp only [h2] at h; exact absurd h (by simp)
      | ok detected =>
        simp only [h2] at h
        cases h3 : scoreE r (pyAnyStr detected) with
        | error e => simp only [h3] at h; exact absurd h (by simp)
        | ok score =>
          simp only [h3] at h
          cases h4 : buildResults preds (i + 1) rs with
          | error e => simp only [h4] at h; exact absurd h (by simp)
          | ok rest =>
            simp only [h4] at h
            simp only [Except.ok.injEq] at h
            subst h
            cases k with
            | zero =>
              refine ⟨pred, detected, score, ?_, h2, h3, rfl⟩
              rw [Nat.add_zero]
              exact (exceptGet_ok_iff _ _ _).mp h1
            | succ k =>
              have hk2 : k < rs.length := by
                simp only [List.length_cons] at hk
                omega
              have hk2' : k < rest.length := by
                simp only [List.length_cons] at hk'
                omega
              obtain ⟨p, d, s, hp, hd, hs, hr⟩ := ih (i + 1) rest h4 k hk2 hk2'
              refine ⟨p, d, s, ?_, hd, hs, ?_⟩
              · rw [show i + (k + 1) = i + 1 + k by omega]
                exact hp
              · simpa using hr

theorem processRows_ok_length (M : Model) (rows : List Row)
    (recs : List Record) (h : processRows M rows = Except.ok recs) :
    recs.length = rows.length :=
  buildResults_ok_length _ rows 0 recs h

theorem processRows_ok_get (M : Model) (rows : List Row)
    (recs : List Record) (h : processRows M rows = Except.ok recs)
    (k : ℕ) (hk : k < rows.length) (hk' : k < recs.length) :
    ∃ (pred : List ℕ) (detected : List String) (score : ℚ),
      (M.classify ((rows.map (fun r => r.tweetText)).map M.vectorize)).get? k =
        some pred ∧
      detectedSymptomsE pred = Except.ok detected ∧
      scoreE (rows.get ⟨k, hk⟩) (pyAnyStr detected) = Except.ok score ∧
      recs.get ⟨k, hk'⟩ =
        mkRecord (rows.get ⟨k, hk⟩) detected (pyAnyStr detected) score := by
  have := buildResults_ok_get _ rows 0 recs h k hk hk'
  simpa using this

/-! ### Score congruence (quote/bookmark independence) -/

theorem scoreE_congr (r r' : Row) (t : Bool) (h : Row.eqExceptQB r r') :
    scoreE r t = scoreE r' t := by
  obtain ⟨_, _, _, _, _, _, h7, h8, h9, h10⟩ := h
  simp only [scoreE, h7, h8, h9, h10]

theorem texts_eqExceptQB :
    ∀ (rows rows' : List Row), rowsEqExceptQB rows rows' →
      rows.map (fun r => r.tweetText) = rows'.map (fun r => r.tweetText) := by
  intro rows
  induction rows with
  | nil =>
    intro rows' heq
    cases rows' with
    | nil => rfl
    | cons r' rs' => exact absurd heq (by simp [rowsEqExceptQB])
  | cons r rs ih =>
    intro rows' heq
    cases rows' with
    | nil => exact absurd heq (by simp [rowsEqExceptQB])
    | cons r' rs' =>
      obtain ⟨hr, hrs⟩ := heq
      simp only [List.map_cons, hr.1, ih rs' hrs]

theorem buildResults_eqExceptQB (preds : List (List ℕ)) :
    ∀ (rows rows' : List Row) (i : ℕ) (recs recs' : List Record),
      rowsEqExceptQB rows rows' →
      buildResults preds i rows = Except.ok recs →
      buildResults preds i rows' = Except.ok recs' →
      recs.map (fun x => x.importance_score) =
        recs'.map (fun x => x.importance_score) := by
  intro rows
  induction rows with
  | nil =>
    intro rows' i recs recs' heq h h'
    cases rows' with
    | cons r' rs' => exact absurd heq (by simp [rowsEqExceptQB])
    | nil =>
      simp only [buildResults, Except.ok.injEq] at h h'
      subst h
      subst h'
      rfl
  | cons r rs ih =>
    intro rows' i recs recs' heq h h'
    cases rows' with
    | nil => exact absurd heq (by simp [rowsEqExceptQB])
    | cons r' rs' =>
      obtain ⟨hr, hrs⟩ := heq
      simp only [buildResults] at h h'
      cases h1 : exceptGet preds i with
      | error e => simp only [h1] at h; exact absurd h (by simp)
      | ok pred =>
        simp only [h1] at h h'
        cases h2 : detectedSymptomsE pred with
        | error e => simp only [h2] at h; exact absurd h (by simp)
        | ok detected =>
          simp only [h2] at h h'
          cases h3 : scoreE r (pyAnyStr detected) with
          | error e => simp only [h3] at h; exact absurd h (by simp)
          | ok score =>
            simp only [h3] at h
            rw [← scoreE_congr r r' (pyAnyStr detected) hr] at h'
            simp only [h3] at h'
            cases h4 : buildResults preds (i + 1) rs with
            | error e => simp only [h4] at h; exact absurd h (by simp)
            | ok rest =>
              simp only [h4] at h
              cases h5 : buildResults preds (i + 1) rs' with
              | error e => simp only [h5] at h'; exact absurd h' (by simp)
              | ok rest' =>
                simp only [h5] at h'
                simp only [Except.ok.injEq] at h h'
                subst h
                subst h'
                simp only [List.map_cons, mkRecord]
                rw [ih rs' (i + 1) rest rest' hrs h4 h5]

theorem processRows_eqExceptQB (M : Model) (rows rows' : List Row)
    (recs recs' : List Record) (heq : rowsEqExceptQB rows rows')
    (h : processRows M rows = Except.ok recs)
    (h' : processRows M rows' = Except.ok recs') :
    recs.map (fun x => x.importance_score) =
      recs'.map (fun x => x.importance_score) := by
  unfold processRows at h h'
  rw [← texts_eqExceptQB rows rows' heq] at h'
  exact buildResults_eqExceptQB _ rows rows' 0 recs recs' heq h h'

/-! ### Normalization lemmas -/

theorem normalizeCell_ne_nan (c : Cell) : normalizeCell c ≠ Cell.nan := by
  cases c <;> simp [normalizeCell]

theorem cells_normalizeRow (r : Row) :
    (normalizeRow r).cells = r.cells.map normalizeCell := rfl

/-! ### The claims -/

/-- C1: for every input row of a valid CSV, the importance score of the
corresponding record equals
`0.4*replyCount + 0.3*retweetCount + 0.2*likeCount + 0.1*views + (100 if the relevance flag else 0)`,
exactly and without clamping or rounding, and the scores are unchanged if
only the rows' `quoteCount`/`bookmarkCount` values are changed. -/
theorem spec_c1 (M : Model) (rows rows' : List Row) (recs recs' : List Record)
    (h : processRows M rows = Except.ok recs)
    (h' : processRows M rows' = Except.ok recs')
    (heq : rowsEqExceptQB rows rows')
    (i : ℕ) (hi : i < rows.length) (hi' : i < recs.length)
    (rp rt lk vw : ℚ)
    (h1 : (rows.get ⟨i, hi⟩).replyCount = Cell.num rp)
    (h2 : (rows.get ⟨i, hi⟩).retweetCount = Cell.num rt)
    (h3 : (rows.get ⟨i, hi⟩).likeCount = Cell.num lk)
    (h4 : (rows.get ⟨i, hi⟩).views = Cell.num vw) :
    (recs.get ⟨i, hi'⟩).importance_score =
      4/10 * rp + 3/10 * rt + 2/10 * lk + 1/10 * vw +
        (if (recs.get ⟨i, hi'⟩).is_tb then 100 else 0) ∧
    recs.map (fun x => x.importance_score) =
      recs'.map (fun x => x.importance_score) := by
  refine ⟨?_, processRows_eqExceptQB M rows rows' recs recs' heq h h'⟩
  obtain ⟨pred, detected, score, hp, hd, hs, hrec⟩ :=
    processRows_ok_get M rows recs h i hi hi'
  rw [hrec]
  simp only [scoreE, h1, h2, h3, h4, pyScale, Except.ok.injEq] at hs
  simp only [mkRecord]
  exact hs.symm

/-- C2: in every output record, `is_tb` is true iff `detected_symptoms`
is non-empty. -/
theorem spec_c2 (M : Model) (rows : List Row) (recs : List Record)
    (h : processRows M rows = Except.ok recs) (rec : Record)
    (hrec : rec ∈ recs) :
    (rec.is_tb = true ↔ rec.detected_symptoms ≠ []) := by
  obtain ⟨⟨k, hk'⟩, hget⟩ := List.mem_iff_get.mp hrec
  have hk : k < rows.length := by
    rw [← processRows_ok_length M rows recs h]
    exact hk'
  obtain ⟨pred, detected, score, hp, hd, hs, hrec_eq⟩ :=
    processRows_ok_get M rows recs h k hk hk'
  rw [← hget, hrec_eq]
  simp only [mkRecord]
  exact pyAnyStr_iff detected
    (fun s hmem => mem_symptom_labels_ne_empty s
      (detectedSymptomsE_ok_mem pred detected hd s hmem))

/-- C3: every record's `detected_symptoms` is exactly the list of labels
whose classifier output bit is 1, in label-set order, and is a sublist
(subset, order preserved) of the fixed five-label set. -/
theorem spec_c3 (M : Model) (rows : List Row) (recs : List Record)
    (h : processRows M rows = Except.ok recs) (k : ℕ)
    (hk : k < rows.length) (hk' : k < recs.length) (pred : List ℕ)
    (hpred : (M.classify ((rows.map (fun r => r.tweetText)).map M.vectorize)).get? k
      = some pred) :
    (recs.get ⟨k, hk'⟩).detected_symptoms =
      spec_selectedLabels symptom_labels pred ∧
    ((recs.get ⟨k, hk'⟩).detected_symptoms).Sublist symptom_labels := by
  obtain ⟨pred₀, detected, score, hp, hd, hs, hrec_eq⟩ :=
    processRows_ok_get M rows recs h k hk hk'
  rw [hp] at hpred
  injection hpred with hpred
  subst hpred
  rw [hrec_eq]
  simp only [mkRecord]
  have hspec := detectedSymptomsE_ok pred₀ detected hd
  refine ⟨hspec, ?_⟩
  rw [hspec]
  exact spec_selectedLabels_sublist pred₀ symptom_labels

/-- C4: a successful request returns the records sorted by importance
score, non-increasing and stable: the body is the serialization of
`sortDesc recs` where `recs` is in input-row order, `sortDesc recs` is
pairwise non-increasing on scores, and for every score value the records
with that score appear in their original order. -/
theorem spec_c4 (M : Model) (bytes : List ℕ) (df : CSV)
    (recs : List Record) (q : ℚ)
    (hparse : M.parse bytes = Except.ok df)
    (hcols : required_columns.all (fun c => df.columns.contains c) = true)
    (h : processRows M (normalizeDF df).rows = Except.ok recs) :
    analyze M (Option.some bytes) =
      ⟨200, JSON.arr ((sortDesc recs).map Record.toJSON)⟩ ∧
    List.Pairwise (fun a b => b.importance_score ≤ a.importance_score)
      (sortDesc recs) ∧
    (sortDesc recs).filter (fun r => decide (r.importance_score = q)) =
      recs.filter (fun r => decide (r.importance_score = q)) := by
  refine ⟨?_, pairwise_sortDesc recs, filter_sortDesc recs q⟩
  simp only [analyze, hparse, h]
  rw [if_pos hcols]

/-- C5: a request without a file in the multipart body gets
`400 {"error": "No file provided"}`, independently of the model and
hence without any further processing. -/
theorem spec_c5 (M : Model) :
    analyze M Option.none =
      ⟨400, JSON.obj [("error", JSON.str "No file provided")]⟩ := rfl

/-- C6: a CSV that parses but misses a required column gets 400 with a
message naming the full required-column list. -/
theorem spec_c6 (M : Model) (bytes : List ℕ) (df : CSV)
    (hparse : M.parse bytes = Except.ok df)
    (hcols : required_columns.all (fun c => df.columns.contains c) = false) :
    analyze M (Option.some bytes) =
      ⟨400, JSON.obj [("error", JSON.str
        ("CSV file must contain the following columns: " ++
          pyListRepr required_columns))]⟩ := by
  simp only [analyze, hparse]
  rw [if_neg (by rw [hcols]; exact Bool.false_ne_true)]

/-- C7: any processing exception other than the two validation failures
(a parse failure, or any exception inside the classification/scoring
loop) yields exactly `500 {"error": "Internal server error"}`, with no
row data. -/
theorem spec_c7 (M : Model) (bytes : List ℕ)
    (hfail : M.parse bytes = Except.error () ∨
      ∃ df, M.parse bytes = Except.ok df ∧
        required_columns.all (fun c => df.columns.contains c) = true ∧
        processRows M (normalizeDF df).rows = Except.error ()) :
    analyze M (Option.some bytes) =
      ⟨500, JSON.obj [("error", JSON.str "Internal server error")]⟩ := by
  rcases hfail with hp | ⟨df, hp, hcols, hrun⟩
  · simp [analyze, hp, internalErrorResponse]
  · simp only [analyze, hp, hrun]
    rw [if_pos hcols]
    rfl

/-- C8: the geo field of each record is `None` (JSON null) when the
row's geo cell is falsy, and the row's geo value verbatim otherwise. -/
theorem spec_c8 (M : Model) (rows : List Row) (recs : List Record)
    (h : processRows M rows = Except.ok recs) (k : ℕ)
    (hk : k < rows.length) (hk' : k < recs.length) :
    (recs.get ⟨k, hk'⟩).geo =
      (if (rows.get ⟨k, hk⟩).geo.truthy then (rows.get ⟨k, hk⟩).geo
       else Cell.none) ∧
    ((recs.get ⟨k, hk'⟩).geo).toJSON =
      (if (rows.get ⟨k, hk⟩).geo.truthy then ((rows.get ⟨k, hk⟩).geo).toJSON
       else JSON.null) := by
  obtain ⟨pred, detected, score, hp, hd, hs, hrec_eq⟩ :=
    processRows_ok_get M rows recs h k hk hk'
  rw [hrec_eq]
  refine ⟨rfl, ?_⟩
  by_cases ht : ((rows.get ⟨k, hk⟩).geo).truthy = true
  · show (if ((rows.get ⟨k, hk⟩).geo).truthy then (rows.get ⟨k, hk⟩).geo
      else Cell.none).toJSON = _
    rw [if_pos ht, if_pos ht]
  · show (if ((rows.get ⟨k, hk⟩).geo).truthy then (rows.get ⟨k, hk⟩).geo
      else Cell.none).toJSON = _
    rw [if_neg ht, if_neg ht]
    rfl

/-- C9: after the normalization of line 50, no NaN cell survives: every
cell-valued field of every output record built from a normalized
dataframe differs from the NaN marker, a NaN cell normalizes to the null
sentinel `None`, the sentinel serializes to JSON `null`, and no record
field serializes to the invalid NaN token. -/
theorem spec_c9 (df : CSV) (M : Model) (recs : List Record)
    (h : processRows M (normalizeDF df).rows = Except.ok recs)
    (rec : Record) (hrec : rec ∈ recs) (c : Cell) (hc : c ∈ rec.cells) :
    c ≠ Cell.nan ∧ normalizeCell Cell.nan = Cell.none ∧
      Cell.toJSON (normalizeCell Cell.nan) = JSON.null ∧
      Cell.toJSON c ≠ JSON.nanToken := by
  have hcne : c ≠ Cell.nan := by
    obtain ⟨⟨k, hk'⟩, hget⟩ := List.mem_iff_get.mp hrec
    have hk : k < (normalizeDF df).rows.length := by
      rw [← processRows_ok_length M (normalizeDF df).rows recs h]
      exact hk'
    obtain ⟨pred, detected, score, hp, hd, hs, hrec_eq⟩ :=
      processRows_ok_get M (normalizeDF df).rows recs h k hk hk'
    rw [← hget, hrec_eq] at hc
    have hrowmem : (normalizeDF df).rows.get ⟨k, hk⟩ ∈ df.rows.map normalizeRow :=
      List.get_mem _ _ _
    obtain ⟨r₀, _, hr₀⟩ := List.mem_map.mp hrowmem
    rw [← hr₀] at hc
    simp only [Record.cells, mkRecord, normalizeRow, List.mem_cons,
      List.not_mem_nil, or_false] at hc
    rcases hc with rfl | rfl | rfl | rfl | hgeo | rfl | rfl | rfl | rfl | rfl | rfl | rfl
    case _ => exact normalizeCell_ne_nan _
    case _ => exact normalizeCell_ne_nan _
    case _ => exact normalizeCell_ne_nan _
    case _ => exact normalizeCell_ne_nan _
    case _ =>
      subst hgeo
      split
      · exact normalizeCell_ne_nan _
      · simp
    all_goals exact normalizeCell_ne_nan _
  refine ⟨hcne, rfl, rfl, ?_⟩
  cases c with
  | nan => exact absurd rfl hcne
  | none => exact fun hh => nomatch hh
  | str s => exact fun hh => nomatch hh
  | num q => exact fun hh => nomatch hh
  | boolean b => exact fun hh => nomatch hh

/-- C10: with the loaded model fixed, the handler is deterministic:
byte-identical uploads produce identical responses. -/
theorem spec_c10 (M : Model) (f1 f2 : Option (List ℕ)) (h : f1 = f2) :
    analyze M f1 = analyze M f2 := by rw [h]

/-! ### Witnesses: the claim theorems applied at concrete inputs -/

/-- Witness for C1 at the two-row test batch: row A scores
`0.4*10 + 0.3*5 + 0.2*20 + 0.1*100 + 100`, and changing only
quote/bookmark counts leaves all scores unchanged. -/
theorem spec_c1_witness :
    (testRecs.get ⟨0, by decide⟩).importance_score =
      4/10 * 10 + 3/10 * 5 + 2/10 * 20 + 1/10 * 100 +
        (if (testRecs.get ⟨0, by decide⟩).is_tb then 100 else 0) ∧
    testRecs.map (fun x => x.importance_score) =
      testRecs'.map (fun x => x.importance_score) :=
  spec_c1 testModel [rowA, rowB] [rowA', rowB] testRecs testRecs' rfl rfl
    ⟨⟨rfl, rfl, rfl, rfl, rfl, rfl, rfl, rfl, rfl, rfl⟩,
      ⟨rfl, rfl, rfl, rfl, rfl, rfl, rfl, rfl, rfl, rfl⟩, trivial⟩
    0 (by decide) (by decide) 10 5 20 100 rfl rfl rfl rfl

/-- Witness for C2 at the first test record. -/
theorem spec_c2_witness :
    ((testRecs.get ⟨0, by decide⟩).is_tb = true ↔
      (testRecs.get ⟨0, by decide⟩).detected_symptoms ≠ []) :=
  spec_c2 testModel [rowA, rowB] testRecs rfl (testRecs.get ⟨0, by decide⟩)
    (List.get_mem testRecs 0 (by decide))

/-- Witness for C3 at the first test record, whose prediction vector is
`[1, 0, 0, 0, 0]`. -/
theorem spec_c3_witness :
    (testRecs.get ⟨0, by decide⟩).detected_symptoms =
      spec_selectedLabels symptom_labels [1, 0, 0, 0, 0] ∧
    ((testRecs.get ⟨0, by decide⟩).detected_symptoms).Sublist
      symptom_labels :=
  spec_c3 testModel [rowA, rowB] testRecs rfl 0 (by decide) (by decide)
    [1, 0, 0, 0, 0] rfl

/-- Witness for C4 at a parseable upload of the test dataframe. -/
theorem spec_c4_witness :
    analyze testModel (Option.some [3]) =
      ⟨200, JSON.arr ((sortDesc testRecsN).map Record.toJSON)⟩ ∧
    List.Pairwise (fun a b => b.importance_score ≤ a.importance_score)
      (sortDesc testRecsN) ∧
    (sortDesc testRecsN).filter
        (fun r => decide (r.importance_score = 239/2)) =
      testRecsN.filter (fun r => decide (r.importance_score = 239/2)) :=
  spec_c4 testModel [3] testCSV testRecsN (239/2) rfl rfl rfl

/-- Witness for C6 at an upload parsing to a dataframe with only two of
the twelve required columns. -/
theorem spec_c6_witness :
    analyze testModel (Option.some [1]) =
      ⟨400, JSON.obj [("error", JSON.str
        ("CSV file must contain the following columns: " ++
          pyListRepr required_columns))]⟩ :=
  spec_c6 testModel [1] badCSV rfl rfl

/-- Witness for C7 at an upload whose single row has a non-numeric
`replyCount`, so the score computation raises. -/
theorem spec_c7_witness :
    analyze testModel (Option.some [2]) =
      ⟨500, JSON.obj [("error", JSON.str "Internal server error")]⟩ :=
  spec_c7 testModel [2] (Or.inr ⟨errRowCSV, rfl, rfl, rfl⟩)

/-- Witness for C8 at the second test record, whose geo cell is the
empty string (falsy). -/
theorem spec_c8_witness :
    (testRecs.get ⟨1, by decide⟩).geo =
      (if rowB.geo.truthy then rowB.geo else Cell.none) ∧
    ((testRecs.get ⟨1, by decide⟩).geo).toJSON =
      (if rowB.geo.truthy then (rowB.geo).toJSON else JSON.null) :=
  spec_c8 testModel [rowA, rowB] testRecs rfl 1 (by decide) (by decide)

/-- Witness for C9 at the second normalized record, whose `createdAt`
cell was NaN in the raw dataframe and is `None` in the output. -/
theorem spec_c9_witness :
    Cell.none ≠ Cell.nan ∧ normalizeCell Cell.nan = Cell.none ∧
      Cell.toJSON (normalizeCell Cell.nan) = JSON.null ∧
      Cell.toJSON Cell.none ≠ JSON.nanToken :=
  spec_c9 testCSV testModel testRecsN rfl (testRecsN.get ⟨1, by decide⟩)
    (List.get_mem testRecsN 1 (by decide)) Cell.none (by decide)

/-- Witness for C10 at a concrete upload. -/
theorem spec_c10_witness :
    analyze testModel (Option.some [3]) = analyze testModel (Option.some [3]) :=
  spec_c10 testModel (Option.some [3]) (Option.some [3]) rfl
